import Mathlib

/-!
# Navigation tracking content script (content.js)

A shallow embedding of the content script of the web navigation tracker:
the label resolver `getElementLabel`, the single emission path `captureEvent`
with its bounded read-modify-write append, the control message listener, the
DOM / history / network / mutation interceptors, and the theorems that settle
the specification claims about them.

Modelling conventions.
* JavaScript values are the type `JSVal`; a JavaScript string is its sequence
  of UTF-16 code units, and `js` gives the string denoted by a literal.
* Template literals use `toStr`, which throws on a symbol; `a || b` uses
  `JSVal.truthy`; `x?.trim()` is `optTrim`, which raises a `TypeError` on a
  non-nullish value without a `trim` method, as in JavaScript.
* `chrome.storage.local` is a record with two optional keys; `get` with
  defaults and `set` complete immediately (serialized, no races).
* The page (location, hash, title, clock) is passed in as `Page`; the element
  a listener receives is an `Element`, a record of the properties it reads.
-/

namespace NavTrack

/-! ## JavaScript strings and values -/

/-- A UTF-16 code unit. -/
abbrev CodeUnit := Fin 65536

/-- A JavaScript string: its UTF-16 code units, well-formed or not. -/
abbrev JSString := List CodeUnit

/-- The UTF-16 encoding of a sequence of characters: one unit for a character
of the basic plane, a surrogate pair for any other. -/
def utf16 : List Char → JSString
  | [] => []
  | c :: cs =>
    if c.toNat < 0x10000 then Fin.ofNat c.toNat :: utf16 cs
    else
      Fin.ofNat (0xD800 + (c.toNat - 0x10000) / 0x400) ::
        Fin.ofNat (0xDC00 + (c.toNat - 0x10000) % 0x400) :: utf16 cs

/-- The JavaScript string denoted by a string literal. -/
def js (s : String) : JSString :=
  utf16 s.data

/-- JavaScript values that reach the content script. `obj shown url` is an
object whose string conversion is `shown` and whose `url` property is `url`;
objects carry no `trim` or `substr` method. Numbers are the integer-valued
ones. -/
inductive JSVal where
  | undefined
  | null
  | bool (b : Bool)
  | num (n : Int)
  | str (s : JSString)
  | symbol
  | obj (shown : JSString) (url : JSVal)
  deriving DecidableEq

/-- Exceptions raised by the embedded code. -/
inductive JSError where
  | typeError
  deriving DecidableEq

/-- JavaScript truthiness (`ToBoolean`). -/
def JSVal.truthy : JSVal → Bool
  | .undefined => false
  | .null => false
  | .bool b => b
  | .num n => n != 0
  | .str s => !s.isEmpty
  | .symbol => true
  | .obj _ _ => true

/-- Eager `a || b` on already evaluated operands. -/
def JSVal.or (a b : JSVal) : JSVal :=
  if a.truthy then a else b

/-- String conversion as performed by a template literal; converting a symbol
throws a `TypeError`. -/
def toStr : JSVal → Except JSError JSString
  | .undefined => .ok (js "undefined")
  | .null => .ok (js "null")
  | .bool true => .ok (js "true")
  | .bool false => .ok (js "false")
  | .num n => .ok (js (toString n))
  | .str s => .ok s
  | .symbol => .error .typeError
  | .obj shown _ => .ok shown

/-- Property read `v.url` guarded by `?.`: nullish receivers give `undefined`,
primitives have no such property, objects give their `url` property. -/
def optUrl : JSVal → JSVal
  | .obj _ u => u
  | _ => .undefined

/-- Code units that `String.prototype.trim` removes (WhiteSpace and
LineTerminator of ECMAScript). -/
def isJsWhiteSpace (c : CodeUnit) : Bool :=
  let n := c.val
  n == 9 || n == 10 || n == 11 || n == 12 || n == 13 || n == 32 ||
  n == 0xA0 || n == 0x1680 || (0x2000 ≤ n && n ≤ 0x200A) ||
  n == 0x2028 || n == 0x2029 || n == 0x202F || n == 0x205F ||
  n == 0x3000 || n == 0xFEFF

/-- The method `String.prototype.trim`. -/
def jsTrim (s : JSString) : JSString :=
  ((s.dropWhile isJsWhiteSpace).reverse.dropWhile isJsWhiteSpace).reverse

/-- The call `x?.trim()`: `undefined` for a nullish receiver, the trimmed
string for a string, and a `TypeError` for any other receiver (its `trim`
property is `undefined`, and calling it throws). -/
def optTrim : JSVal → Except JSError JSVal
  | .undefined => .ok .undefined
  | .null => .ok .undefined
  | .str s => .ok (.str (jsTrim s))
  | _ => .error .typeError

/-- Short-circuit `a || b` where evaluating either operand may throw. -/
def orElse (a : Except JSError JSVal) (b : Unit → Except JSError JSVal) :
    Except JSError JSVal :=
  match a with
  | .error e => .error e
  | .ok v => if v.truthy then .ok v else b ()

/-- The call `s.split(" ")`. -/
def splitSpace : JSString → List JSString
  | [] => [[]]
  | c :: cs =>
    match splitSpace cs with
    | [] => [[]]
    | w :: ws => if c.val = 32 then [] :: w :: ws else (c :: w) :: ws

/-- The call `s.substr(0, n)`: the first `n` code units of `s`. -/
def jsSubstr0 (n : Nat) (s : JSString) : JSString :=
  s.take n

/-! ## Data model: records, storage, page -/

/-- An object literal passed as `additionalContext`: its fields in source
order. -/
abbrev Context := List (String × JSVal)

/-- Property read `ctx.key` (`undefined` when absent). -/
def Context.get (ctx : Context) (key : String) : JSVal :=
  match ctx.lookup key with
  | some v => v
  | none => .undefined

/-- The record built by `captureEvent`. -/
structure EventRecord where
  url : String
  eventType : String
  additionalContext : Context
  timestamp : String
  title : String
  naturalDescription : JSVal
  deriving DecidableEq

/-- The two keys of `chrome.storage.local`; `none` is an absent key. -/
structure Storage where
  isTracking : Option Bool
  navigationEvents : Option (List EventRecord)
  deriving DecidableEq

/-- The state of one content script: the in-memory flag and the store. -/
structure State where
  isTracking : Bool
  storage : Storage
  deriving DecidableEq

/-- What a listener reads from the page when it runs. -/
structure Page where
  href : String
  title : String
  now : String
  hash : String
  deriving DecidableEq

/-- The read of `navigationEvents` with default `[]`. -/
def Storage.getNavigationEvents (st : Storage) : List EventRecord :=
  st.navigationEvents.getD []

/-- The read of `isTracking` with default `false`. -/
def Storage.getIsTracking (st : Storage) : Bool :=
  st.isTracking.getD false

/-- The stored log as a reader sees it. -/
def State.log (s : State) : List EventRecord :=
  s.storage.getNavigationEvents

/-! ## The emission path -/

/-- The record literal of `captureEvent`. -/
def buildRecord (page : Page) (eventType : String) (additionalContext : Context) :
    EventRecord :=
  { url := page.href
    eventType := eventType
    additionalContext := additionalContext
    timestamp := page.now
    title := page.title
    naturalDescription := (additionalContext.get "naturalDescription").or (.str (js "")) }

/-- The body of the storage callback: `events.push(record)` followed by
`if (events.length > 2000) events.splice(0, events.length - 2000)`. -/
def pushBounded (events : List EventRecord) (record : EventRecord) : List EventRecord :=
  let events := events ++ [record]
  if events.length > 2000 then events.drop (events.length - 2000) else events

/-- The function `captureEvent(eventType, additionalContext)`. -/
def captureEvent (page : Page) (eventType : String) (additionalContext : Context)
    (s : State) : State :=
  if !s.isTracking then s
  else
    let record := buildRecord page eventType additionalContext
    let events := s.storage.getNavigationEvents
    { s with storage := { s.storage with navigationEvents := some (pushBounded events record) } }

/-- One call of `captureEvent`, with the page as it is at that call. -/
structure Call where
  page : Page
  eventType : String
  additionalContext : Context

/-- The record a call builds. -/
def Call.record (c : Call) : EventRecord :=
  buildRecord c.page c.eventType c.additionalContext

/-- Successive calls of `captureEvent`, each completing before the next. -/
def captureAll (calls : List Call) (s : State) : State :=
  calls.foldl (fun st c => captureEvent c.page c.eventType c.additionalContext st) s

/-- The last `n` elements of a list, in order. -/
def lastN {α : Type} (n : Nat) (l : List α) : List α :=
  l.drop (l.length - n)

/-! ## DOM elements and the label resolver -/

/-- The properties and attributes of a DOM element that the script reads.
A property the element does not have is `undefined`. -/
structure Element where
  tagName : String
  id : String
  innerText : JSVal
  value : JSVal
  placeholder : JSVal
  name : JSVal
  className : JSVal
  href : JSVal
  type : JSVal
  action : JSVal
  method : JSVal
  isContentEditable : JSVal
  attributes : List (String × String)
  deriving DecidableEq

/-- The method `el.getAttribute(name)`: the attribute string or `null`. -/
def Element.getAttribute (el : Element) (name : String) : JSVal :=
  match el.attributes.lookup name with
  | some v => .str (js v)
  | none => .null

/-- The operand `el.className && typeof el.className === 'string' &&
el.className.split(" ").filter(c => c.length > 3)[0]`. -/
def classCandidate : JSVal → JSVal
  | .str s =>
    if s.isEmpty then .str s
    else
      match (splitSpace s).filter (fun c => c.length > 3) with
      | [] => .undefined
      | w :: _ => .str w
  | v => if v.truthy then .bool false else v

/-- The function `getElementLabel(el)`; `none` is a null element. -/
def getElementLabel (el : Option Element) : Except JSError JSVal :=
  match el with
  | none => .ok (.str (js ""))
  | some el =>
    orElse (optTrim el.innerText) fun _ =>
    orElse (optTrim el.value) fun _ =>
    orElse (optTrim (el.getAttribute "aria-label")) fun _ =>
    orElse (optTrim (el.getAttribute "title")) fun _ =>
    orElse (optTrim (el.getAttribute "alt")) fun _ =>
    orElse (optTrim el.placeholder) fun _ =>
    orElse (.ok el.name) fun _ =>
    orElse (.ok (.str (js el.id))) fun _ =>
    orElse (.ok (classCandidate el.className)) fun _ =>
    .ok (.str (js el.tagName))

/-! ## Control messages -/

/-- The listener of `chrome.runtime.onMessage`: the three `if` statements in
source order, then the acknowledgement passed to `sendResponse`. -/
def onMessage (page : Page) (action : String) (s : State) : State × Context :=
  let s :=
    if action = "start" then
      let s := { s with isTracking := true }
      let s := { s with storage := { s.storage with isTracking := some true } }
      captureEvent page "tracking" [("naturalDescription", .str (js "Tracking started"))] s
    else s
  let s :=
    if action = "stop" then
      let s := { s with isTracking := false }
      let s := { s with storage := { s.storage with isTracking := some false } }
      captureEvent page "tracking" [("naturalDescription", .str (js "Tracking stopped"))] s
    else s
  let s :=
    if action = "clear" then
      let s := { s with storage := { s.storage with navigationEvents := some [] } }
      captureEvent page "tracking" [("naturalDescription", .str (js "Events cleared"))] s
    else s
  (s, [("result", .str (js "ok"))])

/-- The startup callback `res => isTracking = res.isTracking`. -/
def syncTracking (s : State) : State :=
  { s with isTracking := s.storage.getIsTracking }

/-! ## DOM event listeners -/

/-- Lower-casing of a tag name, for type selectors on HTML elements. -/
def lowerName (s : String) : String :=
  ⟨s.data.map Char.toLower⟩

/-- Whether an element matches the selector
`a,button,[role=button],[role=tab],input,li,div,span`. -/
def matchesClickSelector (el : Element) : Bool :=
  lowerName el.tagName ∈ ["a", "button", "input", "li", "div", "span"] ||
  el.attributes.lookup "role" == some "button" ||
  el.attributes.lookup "role" == some "tab"

/-- The call `evt.target.closest(selector)` on the target followed by its
ancestors, innermost first. -/
def closest (path : List Element) : Option Element :=
  path.find? matchesClickSelector

/-- The description chosen by the click listener:
`label ? (Clicked on "label") : (Clicked on tagName)`. -/
def clickDescription (label : JSVal) (el : Element) : Except JSError JSString :=
  if label.truthy then
    match toStr label with
    | .error e => .error e
    | .ok shown => .ok (js "Clicked on \"" ++ shown ++ js "\"")
  else .ok (js "Clicked on " ++ js el.tagName)

/-- The click listener; `path` is the event target followed by its ancestors.
An exception leaves the listener before `captureEvent` is reached. -/
def onClick (page : Page) (path : List Element) (s : State) : Except JSError State :=
  match closest path with
  | none => .ok s
  | some el =>
    match getElementLabel (some el) with
    | .error e => .error e
    | .ok label =>
      match clickDescription label el with
      | .error e => .error e
      | .ok desc =>
        .ok (captureEvent page "click"
          [ ("tag", .str (js el.tagName)),
            ("text", (el.innerText.or el.value).or (.str (js ""))),
            ("id", .str (js el.id)),
            ("class", el.className),
            ("href", el.href.or (.str (js ""))),
            ("type", el.type.or (.str (js ""))),
            ("role", (el.getAttribute "role").or (.str (js ""))),
            ("naturalDescription", .str desc) ] s)

/-- The submit listener; `form` is the event target. -/
def onSubmit (page : Page) (form : Element) (s : State) : Except JSError State :=
  let label :=
    orElse (.ok (form.getAttribute "name")) fun _ =>
    orElse (.ok (form.getAttribute "id")) fun _ =>
    orElse (getElementLabel (some form)) fun _ =>
    .ok (.str (js "form"))
  match label with
  | .error e => .error e
  | .ok label =>
    match toStr label with
    | .error e => .error e
    | .ok shown =>
      .ok (captureEvent page "form_submit"
        [ ("action", form.action),
          ("method", form.method),
          ("naturalDescription", .str (js "Submitted " ++ shown)) ] s)

/-- The call `v.substr(0, 100)` on `v = (t.value || "")`; a value that is
not a string has no `substr` method. -/
def substr100 : JSVal → Except JSError JSVal
  | .str v => .ok (.str (jsSubstr0 100 v))
  | _ => .error .typeError

/-- The condition of the keydown listener. -/
def isEditTarget (t : Element) : Bool :=
  t.tagName == "INPUT" || t.tagName == "TEXTAREA" || t.isContentEditable.truthy

/-- The keydown listener; `t` is the event target and `key` is `evt.key`. -/
def onKeydown (page : Page) (key : String) (t : Element) (s : State) :
    Except JSError State :=
  if isEditTarget t then
    match substr100 (t.value.or (.str (js ""))) with
    | .error e => .error e
    | .ok value =>
      match getElementLabel (some t) with
      | .error e => .error e
      | .ok label =>
        match toStr label with
        | .error e => .error e
        | .ok shown =>
          .ok (captureEvent page "input_edit"
            [ ("key", .str (js key)),
              ("name", t.name.or (.str (js t.id))),
              ("type", t.type.or (.str (js ""))),
              ("value", value),
              ("naturalDescription",
                .str (js "Typed \"" ++ js key ++ js "\" in \"" ++ shown ++ js "\"")) ] s)
  else .ok s

/-! ## History, lifecycle and mutation listeners -/

/-- The popstate listener. -/
def onPopstate (page : Page) (s : State) : State :=
  captureEvent page "navigation"
    [("naturalDescription", .str (js "Navigated using browser back/forward"))] s

/-- The hashchange listener. -/
def onHashchange (page : Page) (s : State) : State :=
  captureEvent page "navigation"
    [("naturalDescription", .str (js "Changed hash to \"" ++ js page.hash ++ js "\""))] s

/-- The page-load record: deferred to `DOMContentLoaded` when the document is
still loading, immediate otherwise. -/
def onPageLoad (page : Page) (loading : Bool) (s : State) : State :=
  if loading then
    captureEvent page "navigation"
      [("naturalDescription", .str (js "Page loaded (DOMContentLoaded)"))] s
  else
    captureEvent page "navigation"
      [("naturalDescription", .str (js "Page loaded (quick start)"))] s

/-- One entry of a mutation batch; the node lists are given by their
lengths. -/
structure MutationRecord where
  type : String
  addedNodes : Nat
  removedNodes : Nat
  deriving DecidableEq

/-- The loop of the observer callback that sets `changed`. -/
def mutationsChanged : List MutationRecord → Bool
  | [] => false
  | m :: ms =>
    if m.type == "childList" && (m.addedNodes > 0 || m.removedNodes > 0) then true
    else mutationsChanged ms

/-- The observer callback; `probe` is the result of `document.querySelector`
on the heading selectors. -/
def onMutations (page : Page) (probe : Option Element) (mutations : List MutationRecord)
    (s : State) : Except JSError State :=
  if mutationsChanged mutations then
    let heading : Except JSError JSVal :=
      match probe with
      | none => .ok .undefined
      | some h => optTrim h.innerText
    match heading with
    | .error e => .error e
    | .ok heading =>
      if heading.truthy then
        match toStr heading with
        | .error e => .error e
        | .ok shown =>
          .ok (captureEvent page "internalNav"
            [ ("heading", heading),
              ("naturalDescription",
                .str (js "Switched view to \"" ++ shown ++ js "\"")) ] s)
      else
        .ok (captureEvent page "internalNav"
          [("naturalDescription", .str (js "Switched dynamic view (SPA detected)"))] s)
  else .ok s

/-! ## Network interception -/

/-- The expression `typeof url === "string" ? url : (url?.url || "")`. -/
def fetchUrl (url : JSVal) : JSVal :=
  match url with
  | .str u => .str u
  | v => (optUrl v).or (.str (js ""))

/-- The logging block of the patched `fetch`, `if (isTracking) ...`; the
template literal of the description can throw before `captureEvent` is
called. -/
def fetchLog (page : Page) (args : List JSVal) (s : State) : Except JSError State :=
  if s.isTracking then
    let url := args.getD 0 .undefined
    match toStr (fetchUrl url) with
    | .error e => .error e
    | .ok shown =>
      .ok (captureEvent page "network"
        [ ("method", .str (js "fetch")),
          ("url", fetchUrl url),
          ("naturalDescription", .str (js "Triggered fetch(" ++ shown ++ js ")")) ] s)
  else .ok s

/-- The patched `window.fetch`. The original is a function of the argument
list acting on the outside world `W` and returning a result in `R`; it is
reached only if the logging block did not throw. -/
def patchedFetch {W R : Type} (origFetch : List JSVal → W → R × W) (page : Page)
    (args : List JSVal) (s : State) (w : W) : Except JSError (R × W × State) :=
  match fetchLog page args s with
  | .error e => .error e
  | .ok s =>
    let (r, w) := origFetch args w
    .ok (r, w, s)

/-- The expando the script keeps on a request object. -/
structure Xhr where
  _navcap_url : JSVal
  deriving DecidableEq

/-- A freshly constructed request object: the expando is absent. -/
def Xhr.fresh : Xhr :=
  { _navcap_url := .undefined }

/-- The patched `XMLHttpRequest.prototype.open`, declared as
`function(method, url, ...rest)`: a missing named parameter is `undefined`. -/
def patchedOpen {W R : Type} (origOpen : List JSVal → W → R × W)
    (args : List JSVal) (xhr : Xhr) (w : W) : R × W × Xhr :=
  let method := args.getD 0 .undefined
  let url := args.getD 1 .undefined
  let rest := args.drop 2
  let xhr := { xhr with _navcap_url := url }
  let (r, w) := origOpen (method :: url :: rest) w
  (r, w, xhr)

/-- The logging block of the patched `send`. -/
def sendLog (page : Page) (xhr : Xhr) (s : State) : Except JSError State :=
  if s.isTracking && xhr._navcap_url.truthy then
    match toStr xhr._navcap_url with
    | .error e => .error e
    | .ok shown =>
      .ok (captureEvent page "network"
        [ ("method", .str (js "xhr")),
          ("url", xhr._navcap_url),
          ("naturalDescription", .str (js "Triggered XHR to \"" ++ shown ++ js "\"")) ] s)
  else .ok s

/-- The patched `XMLHttpRequest.prototype.send`. -/
def patchedSend {W R : Type} (origSend : List JSVal → W → R × W) (page : Page)
    (args : List JSVal) (xhr : Xhr) (s : State) (w : W) : Except JSError (R × W × State) :=
  match sendLog page xhr s with
  | .error e => .error e
  | .ok s =>
    let (r, w) := origSend args w
    .ok (r, w, s)

/-! ## Signals -/

/-- The browser signals the interceptors observe. -/
inductive Signal where
  | click (path : List Element)
  | submit (form : Element)
  | keydown (key : String) (target : Element)
  | popstate
  | hashchange
  | pageLoad (loading : Bool)
  | fetch (args : List JSVal)
  | xhrSend (xhr : Xhr) (args : List JSVal)
  | mutations (probe : Option Element) (batch : List MutationRecord)

/-- A listener that threw leaves the state as it found it. -/
def settle (s : State) (r : Except JSError State) : State :=
  match r with
  | .ok s1 => s1
  | .error _ => s

/-- The effect of one signal on the script state. -/
def handleSignal (page : Page) (sig : Signal) (s : State) : State :=
  match sig with
  | .click path => settle s (onClick page path s)
  | .submit form => settle s (onSubmit page form s)
  | .keydown key t => settle s (onKeydown page key t s)
  | .popstate => onPopstate page s
  | .hashchange => onHashchange page s
  | .pageLoad loading => onPageLoad page loading s
  | .fetch args => settle s (fetchLog page args s)
  | .xhrSend xhr _ => settle s (sendLog page xhr s)
  | .mutations probe batch => settle s (onMutations page probe batch s)

/-- Signals handled one after another, each with the page as it then is. -/
def handleSignals (sigs : List (Page × Signal)) (s : State) : State :=
  sigs.foldl (fun st ps => handleSignal ps.1 ps.2 st) s

/-- Everything that can append to the log: a signal or a control message. -/
inductive Input where
  | signal (sig : Signal)
  | message (action : String)

/-- One step of the content script. -/
def step (page : Page) (input : Input) (s : State) : State :=
  match input with
  | .signal sig => handleSignal page sig s
  | .message action => (onMessage page action s).1

/-- Inputs handled one after another, each with the page as it then is. -/
def run (inputs : List (Page × Input)) (s : State) : State :=
  inputs.foldl (fun st pi => step pi.1 pi.2 st) s

/-! ## Fixtures and auxiliary notions used by the theorems -/

/-- A page used in the concrete scenarios. -/
def demoPage : Page :=
  { href := "https://example.test/app", title := "Demo", now := "2024-01-01T00:00:00.000Z",
    hash := "#top" }

/-- A script that is not tracking, over an empty store. -/
def idleState : State :=
  { isTracking := false, storage := { isTracking := none, navigationEvents := none } }

/-- A script that is tracking, over an empty log. -/
def trackingState : State :=
  { isTracking := true, storage := { isTracking := some true, navigationEvents := some [] } }

/-- An HTML element with the given tag and nothing a label could come from. -/
def bareElement (tag : String) : Element :=
  { tagName := tag, id := "", innerText := .str (js ""), value := .undefined,
    placeholder := .undefined, name := .undefined, className := .str (js ""),
    href := .undefined, type := .undefined, action := .undefined, method := .undefined,
    isContentEditable := .bool false, attributes := [] }

/-- Two calls used to instantiate C1. -/
def demoCalls : List Call :=
  [ { page := demoPage, eventType := "navigation",
      additionalContext :=
        [("naturalDescription", .str (js "Page loaded (quick start)"))] },
    { page := demoPage, eventType := "click",
      additionalContext :=
        [("tag", .str (js "A")), ("naturalDescription", .str (js "Clicked on \"Home\""))] } ]

/-- A stopped script over a store that already holds one record. -/
def stoppedState : State :=
  { isTracking := false,
    storage := { isTracking := some false,
                 navigationEvents := some [buildRecord demoPage "navigation"
                   [("naturalDescription", .str (js "Page loaded (quick start)"))]] } }

/-- A button labelled "Next". -/
def nextButton : Element :=
  { bareElement "BUTTON" with
    innerText := .str (js "Next"), value := .str (js ""), name := .str (js ""),
    type := .str (js "submit") }

/-- The bookkeeping record of the clear command. -/
def clearedRecord (page : Page) : EventRecord :=
  buildRecord page "tracking" [("naturalDescription", .str (js "Events cleared"))]

/-- Whether a property value is absent or a string. -/
def JSVal.isText : JSVal → Bool
  | .undefined => true
  | .null => true
  | .str _ => true
  | _ => false

/-- The value of `x?.trim()` on an absent or string `x`. -/
def trimmed : JSVal → JSVal
  | .str s => .str (jsTrim s)
  | _ => .undefined

/-- The label candidates of an element in priority order. -/
def labelCandidates (el : Element) : List JSVal :=
  [ trimmed el.innerText, trimmed el.value, trimmed (el.getAttribute "aria-label"),
    trimmed (el.getAttribute "title"), trimmed (el.getAttribute "alt"),
    trimmed el.placeholder, el.name, .str (js el.id), classCandidate el.className ]

/-- The first truthy value of a list, or the fallback. -/
def firstTruthy (candidates : List JSVal) (fallback : JSVal) : JSVal :=
  match candidates.find? JSVal.truthy with
  | some v => v
  | none => fallback

/-- An empty list item carrying a title: `innerText` is the empty string and
`value`, a number on list items, is `0`. -/
def emptyListItem : Element :=
  { bareElement "LI" with value := .num 0, attributes := [("title", "Item")] }

/-- A button labelled "Submit". -/
def submitButton : Element :=
  { bareElement "BUTTON" with
    innerText := .str (js "Submit"), value := .str (js ""), name := .str (js ""),
    type := .str (js "submit") }

/-- The event types of the data model. -/
def eventTypes : List String :=
  ["navigation", "click", "form_submit", "input_edit", "network", "internalNav", "tracking"]

/-- Whether a value is a non-empty string. -/
def JSVal.isNonEmptyString : JSVal → Bool
  | .str d => !d.isEmpty
  | _ => false

/-- A record with one of the event types, hence a non-empty `eventType`, and
a non-empty string as its `naturalDescription`. -/
def EventRecord.Described (r : EventRecord) : Prop :=
  r.eventType ∈ eventTypes ∧ r.eventType ≠ "" ∧
  r.naturalDescription.isNonEmptyString = true

instance (r : EventRecord) : Decidable r.Described := by
  unfold EventRecord.Described
  infer_instance

/-- The shape of every listener outcome: the state is untouched, or one call
of `captureEvent` with a listed type and a non-empty description was made on a
state whose log holds nothing new. -/
def Emits (page : Page) (s s1 : State) : Prop :=
  s1 = s ∨
  ∃ (s0 : State) (eventType : String) (ctx : Context) (d : JSString),
    (∀ r ∈ s0.log, r ∈ s.log) ∧ s1 = captureEvent page eventType ctx s0 ∧
    eventType ∈ eventTypes ∧ ctx.get "naturalDescription" = .str d ∧ d ≠ []

/-- The record of a click on a bare span. -/
def spanClickRecord : EventRecord :=
  buildRecord demoPage "click"
    [ ("tag", .str (js "SPAN")), ("text", .str (js "")), ("id", .str (js "")),
      ("class", .str (js "")), ("href", .str (js "")), ("type", .str (js "")),
      ("role", .str (js "")),
      ("naturalDescription", .str (js "Clicked on \"SPAN\"")) ]

/-- A checkbox: an `INPUT` element that is not a text input. -/
def checkbox : Element :=
  { bareElement "INPUT" with
    type := .str (js "checkbox"), value := .str (js "on"), name := .str (js "agree"),
    placeholder := .str (js "") }

/-- A stand-in for a native function: it returns `undefined` and appends the
argument list it received to the world, which is the list of calls so far. -/
def recordingNative (args : List JSVal) (w : List (List JSVal)) :
    JSVal × List (List JSVal) :=
  (.undefined, w ++ [args])

/-- The record of a `fetch` whose first argument is the string `u`. -/
def fetchRecord (page : Page) (u : JSString) : EventRecord :=
  buildRecord page "network"
    [ ("method", .str (js "fetch")), ("url", .str u),
      ("naturalDescription", .str (js "Triggered fetch(" ++ u ++ js ")")) ]

/-- The record of a `send` on a request opened with the string `u`. -/
def xhrRecord (page : Page) (u : JSString) : EventRecord :=
  buildRecord page "network"
    [ ("method", .str (js "xhr")), ("url", .str u),
      ("naturalDescription", .str (js "Triggered XHR to \"" ++ u ++ js "\"")) ]

/-- The state after the logging block of a `fetch` of the string `u`. -/
def afterFetch (page : Page) (u : JSString) (s : State) : State :=
  captureEvent page "network"
    [ ("method", .str (js "fetch")), ("url", .str u),
      ("naturalDescription", .str (js "Triggered fetch(" ++ u ++ js ")")) ] s

/-- The state after the logging block of a `send` on a request opened with
the non-empty string `u`. -/
def afterSend (page : Page) (u : JSString) (s : State) : State :=
  captureEvent page "network"
    [ ("method", .str (js "xhr")), ("url", .str u),
      ("naturalDescription", .str (js "Triggered XHR to \"" ++ u ++ js "\"")) ] s

/-- A text field holding 99 letters, an emoji outside the basic plane and one
more letter: 102 code units. -/
def longField : Element :=
  { bareElement "TEXTAREA" with
    value := .str (js (String.mk (List.replicate 99 'a') ++ "😀b")),
    name := .str (js "notes"), placeholder := .str (js "") }

/-- An object whose `url` property is a symbol. -/
def symbolUrlRequest : JSVal :=
  .obj (js "[object Object]") .symbol

/-! ## Lemmas on the bounded append -/

theorem pushBounded_eq_lastN (events : List EventRecord) (record : EventRecord) :
    pushBounded events record = lastN 2000 (events ++ [record]) := by
  unfold pushBounded lastN
  simp only
  split
  · rfl
  · rename_i h
    have : (events ++ [record]).length - 2000 = 0 := by omega
    rw [this, List.drop_zero]

theorem lastN_length {α : Type} (n : Nat) (l : List α) :
    (lastN n l).length = min n l.length := by
  unfold lastN
  rw [List.length_drop]
  omega

theorem lastN_of_length_le {α : Type} (n : Nat) (l : List α) (h : l.length ≤ n) :
    lastN n l = l := by
  unfold lastN
  have : l.length - n = 0 := by omega
  rw [this, List.drop_zero]

theorem lastN_append_lastN {α : Type} (n : Nat) (a b : List α) :
    lastN n (lastN n a ++ b) = lastN n (a ++ b) := by
  by_cases h : a.length ≤ n
  · rw [lastN_of_length_le n a h]
  · have hlen : (lastN n a).length = n := by
      rw [lastN_length]; omega
    have hsplit : a ++ b = a.take (a.length - n) ++ (lastN n a ++ b) := by
      unfold lastN
      rw [← List.append_assoc, List.take_append_drop]
    have htake : (a.take (a.length - n)).length = a.length - n := by
      rw [List.length_take]; omega
    have hk : (a ++ b).length - n = (a.take (a.length - n)).length + ((lastN n a ++ b).length - n) := by
      rw [htake, List.length_append, List.length_append, hlen]; omega
    conv_rhs => unfold lastN; rw [hk]; rw [hsplit, List.drop_append]
    rfl

/-! ## Lemmas on `captureEvent` -/

theorem captureEvent_of_not_tracking (page : Page) (eventType : String) (ctx : Context)
    (s : State) (h : s.isTracking = false) : captureEvent page eventType ctx s = s := by
  simp [captureEvent, h]

theorem captureEvent_isTracking (page : Page) (eventType : String) (ctx : Context)
    (s : State) : (captureEvent page eventType ctx s).isTracking = s.isTracking := by
  unfold captureEvent
  split <;> rfl

theorem captureEvent_log (page : Page) (eventType : String) (ctx : Context)
    (s : State) (h : s.isTracking = true) :
    (captureEvent page eventType ctx s).log =
      pushBounded s.log (buildRecord page eventType ctx) := by
  simp [captureEvent, h, State.log, Storage.getNavigationEvents]

theorem pushBounded_length_le (events : List EventRecord) (record : EventRecord) :
    (pushBounded events record).length ≤ 2000 := by
  rw [pushBounded_eq_lastN, lastN_length]
  omega

theorem captureAll_isTracking (calls : List Call) (s : State) :
    (captureAll calls s).isTracking = s.isTracking := by
  induction calls generalizing s with
  | nil => rfl
  | cons c cs ih =>
    show (captureAll cs (captureEvent c.page c.eventType c.additionalContext s)).isTracking = _
    rw [ih, captureEvent_isTracking]

theorem captureAll_append (xs ys : List Call) (s : State) :
    captureAll (xs ++ ys) s = captureAll ys (captureAll xs s) := by
  simp [captureAll, List.foldl_append]

theorem captureAll_log (c : Call) (cs : List Call) (s : State) (h : s.isTracking = true) :
    (captureAll (c :: cs) s).log = lastN 2000 (s.log ++ (c :: cs).map Call.record) := by
  induction cs generalizing s c with
  | nil =>
    show (captureEvent c.page c.eventType c.additionalContext s).log = _
    rw [captureEvent_log _ _ _ _ h, pushBounded_eq_lastN]
    rfl
  | cons d ds ih =>
    have ht : (captureEvent c.page c.eventType c.additionalContext s).isTracking = true := by
      rw [captureEvent_isTracking]; exact h
    show (captureAll (d :: ds) (captureEvent c.page c.eventType c.additionalContext s)).log = _
    rw [ih d _ ht, captureEvent_log _ _ _ _ h, pushBounded_eq_lastN, lastN_append_lastN]
    simp [Call.record]

theorem lastN_min {α : Type} (l : List α) (k : Nat) (hk : l.length ≤ k) :
    lastN (min 2000 k) l = lastN 2000 l := by
  by_cases h : 2000 ≤ k
  · rw [Nat.min_eq_left h]
  · have h1 : min 2000 k = k := Nat.min_eq_right (by omega)
    rw [h1, lastN_of_length_le k l hk, lastN_of_length_le 2000 l (by omega)]

/-! ## C1: bounded FIFO append -/

/-- C1. With tracking on and storage immediate, after a sequence of calls of
`captureEvent` on a stored log `L0` (at least one call, or `L0` within
capacity) the stored log is the last `min 2000 (|L0| + N)` elements of `L0`
followed by the built records, in order. From an empty log, at most 2000 calls
store exactly their records in capture order, more than 2000 calls store
exactly the last 2000, and after every write of the sequence the stored length
is at most 2000. -/
theorem captureAll_bounded_fifo (s : State) (calls : List Call)
    (htrack : s.isTracking = true) (hcalls : s.log.length ≤ 2000 ∨ calls ≠ []) :
    (captureAll calls s).log =
        lastN (min 2000 (s.log.length + calls.length)) (s.log ++ calls.map Call.record) ∧
    (s.log = [] → calls.length ≤ 2000 →
        (captureAll calls s).log = calls.map Call.record) ∧
    (s.log = [] → 2000 < calls.length →
        (captureAll calls s).log = lastN 2000 (calls.map Call.record) ∧
        (captureAll calls s).log.length = 2000) ∧
    (∀ (before after : List Call) (c : Call), calls = before ++ c :: after →
        (captureAll (before ++ [c]) s).log.length ≤ 2000) := by
  have hmain : (captureAll calls s).log = lastN 2000 (s.log ++ calls.map Call.record) := by
    cases calls with
    | nil =>
      rcases hcalls with hlen | hne
      · simp only [List.map_nil, List.append_nil]
        exact (lastN_of_length_le 2000 s.log hlen).symm
      · exact absurd rfl hne
    | cons c cs => exact captureAll_log c cs s htrack
  refine ⟨?_, ?_, ?_, ?_⟩
  · rw [hmain, lastN_min]
    simp
  · intro hempty hN
    rw [hmain, hempty, List.nil_append]
    exact lastN_of_length_le 2000 _ (by simpa using hN)
  · intro hempty hN
    rw [hmain, hempty, List.nil_append]
    refine ⟨rfl, ?_⟩
    rw [lastN_length, List.length_map]
    omega
  · intro before after c _
    rw [captureAll_append]
    have ht : (captureAll before s).isTracking = true := by
      rw [captureAll_isTracking]; exact htrack
    show (captureEvent c.page c.eventType c.additionalContext (captureAll before s)).log.length ≤ 2000
    rw [captureEvent_log _ _ _ _ ht]
    exact pushBounded_length_le _ _

/-- C1 instantiated: two calls on the empty log store the two records in
capture order. -/
theorem captureAll_bounded_fifo_witness :
    trackingState.isTracking = true ∧
    (trackingState.log.length ≤ 2000 ∨ demoCalls ≠ []) ∧
    (captureAll demoCalls trackingState).log = demoCalls.map Call.record :=
  ⟨rfl, Or.inl (by decide),
    (captureAll_bounded_fifo trackingState demoCalls rfl (Or.inl (by decide))).2.1 rfl
      (by decide)⟩

/-! ## C2: the tracking gate -/

theorem settle_of_not_tracking_click (page : Page) (path : List Element) (s : State)
    (h : s.isTracking = false) : settle s (onClick page path s) = s := by
  unfold onClick
  cases closest path with
  | none => rfl
  | some el =>
    simp only
    cases getElementLabel (some el) with
    | error e => rfl
    | ok label =>
      simp only
      cases clickDescription label el with
      | error e => rfl
      | ok desc => simp [settle, captureEvent_of_not_tracking _ _ _ _ h]

theorem settle_of_not_tracking_submit (page : Page) (form : Element) (s : State)
    (h : s.isTracking = false) : settle s (onSubmit page form s) = s := by
  unfold onSubmit
  simp only
  split
  · rfl
  · split
    · rfl
    · simp [settle, captureEvent_of_not_tracking _ _ _ _ h]

theorem settle_of_not_tracking_keydown (page : Page) (key : String) (t : Element) (s : State)
    (h : s.isTracking = false) : settle s (onKeydown page key t s) = s := by
  unfold onKeydown
  split
  · split
    · rfl
    · split
      · rfl
      · split
        · rfl
        · simp [settle, captureEvent_of_not_tracking _ _ _ _ h]
  · rfl

theorem settle_of_not_tracking_mutations (page : Page) (probe : Option Element)
    (batch : List MutationRecord) (s : State) (h : s.isTracking = false) :
    settle s (onMutations page probe batch s) = s := by
  unfold onMutations
  split
  · simp only
    split
    · rfl
    · split
      · split
        · rfl
        · simp [settle, captureEvent_of_not_tracking _ _ _ _ h]
      · simp [settle, captureEvent_of_not_tracking _ _ _ _ h]
  · rfl

theorem handleSignal_of_not_tracking (page : Page) (sig : Signal) (s : State)
    (h : s.isTracking = false) : handleSignal page sig s = s := by
  cases sig with
  | click path => exact settle_of_not_tracking_click page path s h
  | submit form => exact settle_of_not_tracking_submit page form s h
  | keydown key t => exact settle_of_not_tracking_keydown page key t s h
  | popstate => exact captureEvent_of_not_tracking _ _ _ _ h
  | hashchange => exact captureEvent_of_not_tracking _ _ _ _ h
  | pageLoad loading =>
    show onPageLoad page loading s = s
    unfold onPageLoad
    split <;> exact captureEvent_of_not_tracking _ _ _ _ h
  | fetch args => simp [handleSignal, fetchLog, h, settle]
  | xhrSend xhr args => simp [handleSignal, sendLog, h, settle]
  | mutations probe batch => exact settle_of_not_tracking_mutations page probe batch s h

theorem handleSignals_of_not_tracking (sigs : List (Page × Signal)) (s : State)
    (h : s.isTracking = false) : handleSignals sigs s = s := by
  induction sigs with
  | nil => rfl
  | cons ps rest ih =>
    show handleSignals rest (handleSignal ps.1 ps.2 s) = s
    rw [handleSignal_of_not_tracking ps.1 ps.2 s h]
    exact ih

/-- C2. While `isTracking` is false, a call of `captureEvent` with any event
type and context leaves the whole state (stored `navigationEvents`, stored and
in-memory `isTracking`) exactly as it was, and so does any sequence of click,
submit, keydown, popstate, hashchange, page-load, network and mutation
signals. -/
theorem tracking_gate (s : State) (hoff : s.isTracking = false) :
    (∀ (page : Page) (eventType : String) (ctx : Context),
        captureEvent page eventType ctx s = s) ∧
    (∀ sigs : List (Page × Signal), handleSignals sigs s = s) :=
  ⟨fun page eventType ctx => captureEvent_of_not_tracking page eventType ctx s hoff,
    fun sigs => handleSignals_of_not_tracking sigs s hoff⟩

/-- C2 instantiated: a click, a keydown and a fetch on a stopped script leave
its one-record store untouched. -/
theorem tracking_gate_witness :
    stoppedState.isTracking = false ∧
    handleSignals
      [ (demoPage, .click [bareElement "SPAN"]),
        (demoPage, .keydown "a" (bareElement "INPUT")),
        (demoPage, .fetch [.str (js "/api/a")]) ] stoppedState = stoppedState :=
  ⟨rfl, (tracking_gate stoppedState rfl).2 _⟩

/-! ## C3: the stop command -/

/-- C3 (what the stop branch does). Handling the message "stop" sets the
in-memory and the stored `isTracking` to false and leaves the stored log
exactly as it was: `captureEvent` is called after `isTracking = false` and
returns at its gate, so no "Tracking stopped" record is appended. From an
empty store the sequence start, click on the button "Next", stop leaves two
records, "Tracking started" and the click. -/
theorem onMessage_stop_appends_nothing :
    (∀ (page : Page) (s : State),
        (onMessage page "stop" s).1 =
          { isTracking := false, storage := { s.storage with isTracking := some false } }) ∧
    (∀ (page : Page) (s : State), (onMessage page "stop" s).1.log = s.log) ∧
    (run [ (demoPage, .message "start"),
           (demoPage, .signal (.click [nextButton])),
           (demoPage, .message "stop") ] idleState).log.map
        (fun r => (r.eventType, r.naturalDescription)) =
      [ ("tracking", .str (js "Tracking started")),
        ("click", .str (js "Clicked on \"Next\"")) ] := by
  refine ⟨?_, ?_, by decide⟩
  · intro page s
    simp [onMessage, captureEvent]
  · intro page s
    simp [onMessage, captureEvent, State.log, Storage.getNavigationEvents]

/-! ## C4: the clear command -/

/-- C4 (counterexample). On a stopped script whose store holds one record,
the message "clear" leaves an empty log, not a one-record log. -/
theorem onMessage_clear_not_tracking_empty :
    stoppedState.log.length = 1 ∧
    (onMessage demoPage "clear" stoppedState).1.log = [] ∧
    ¬ ∃ r : EventRecord, (onMessage demoPage "clear" stoppedState).1.log = [r] := by
  refine ⟨by decide, by decide, ?_⟩
  rintro ⟨r, hr⟩
  have h0 : (onMessage demoPage "clear" stoppedState).1.log = [] := by decide
  rw [h0] at hr
  exact List.noConfusion hr

/-- C4 (amended). For every prior store, the message "clear" empties the
stored log unconditionally; when `isTracking` is true the log is then exactly
one record, of type "tracking" and described "Events cleared", and when
`isTracking` is false the log stays empty. The flag itself is untouched. -/
theorem onMessage_clear_log (page : Page) (s : State) :
    (onMessage page "clear" s).1.log =
        (if s.isTracking then [clearedRecord page] else []) ∧
    (clearedRecord page).eventType = "tracking" ∧
    (clearedRecord page).naturalDescription = .str (js "Events cleared") ∧
    (onMessage page "clear" s).1.isTracking = s.isTracking := by
  refine ⟨?_, rfl, rfl, ?_⟩
  · cases h : s.isTracking <;>
      simp [onMessage, captureEvent, h, State.log, Storage.getNavigationEvents, pushBounded,
        clearedRecord]
  · cases h : s.isTracking <;> simp [onMessage, captureEvent, h]

/-! ## The label resolver on text-valued elements -/

theorem optTrim_of_isText (v : JSVal) (h : v.isText = true) : optTrim v = .ok (trimmed v) := by
  cases v <;> simp_all [JSVal.isText, optTrim, trimmed]

theorem getAttribute_isText (el : Element) (name : String) :
    (el.getAttribute name).isText = true := by
  unfold Element.getAttribute
  split <;> rfl

theorem getElementLabel_priority (el : Element) (h1 : el.innerText.isText = true)
    (h2 : el.value.isText = true) (h3 : el.placeholder.isText = true) :
    getElementLabel (some el) =
      .ok (firstTruthy (labelCandidates el) (.str (js el.tagName))) := by
  simp only [getElementLabel, optTrim_of_isText _ h1, optTrim_of_isText _ h2,
    optTrim_of_isText _ h3, optTrim_of_isText _ (getAttribute_isText el _), orElse,
    labelCandidates, firstTruthy, List.find?]
  repeat' split
  all_goals simp_all

theorem orElse_truthy (a : Except JSError JSVal) (b : Unit → Except JSError JSVal) (v : JSVal)
    (hb : ∀ r, b () = .ok r → r.truthy = true) (h : orElse a b = .ok v) : v.truthy = true := by
  unfold orElse at h
  split at h
  · exact Except.noConfusion h
  · split at h
    · rename_i hv
      injection h with h
      rw [← h]; exact hv
    · exact hb v h

theorem utf16_ne_nil (cs : List Char) (h : cs ≠ []) : utf16 cs ≠ [] := by
  cases cs with
  | nil => exact absurd rfl h
  | cons c cs =>
    unfold utf16
    split <;> simp

theorem js_ne_nil (s : String) (h : s ≠ "") : js s ≠ [] := by
  apply utf16_ne_nil
  intro hd
  exact h (String.ext hd)

theorem getElementLabel_truthy (el : Element) (label : JSVal) (htag : el.tagName ≠ "")
    (h : getElementLabel (some el) = .ok label) : label.truthy = true := by
  unfold getElementLabel at h
  simp only at h
  refine orElse_truthy _ _ _ (fun r hr => ?_) h
  refine orElse_truthy _ _ _ (fun r hr => ?_) hr
  refine orElse_truthy _ _ _ (fun r hr => ?_) hr
  refine orElse_truthy _ _ _ (fun r hr => ?_) hr
  refine orElse_truthy _ _ _ (fun r hr => ?_) hr
  refine orElse_truthy _ _ _ (fun r hr => ?_) hr
  refine orElse_truthy _ _ _ (fun r hr => ?_) hr
  refine orElse_truthy _ _ _ (fun r hr => ?_) hr
  refine orElse_truthy _ _ _ (fun r hr => ?_) hr
  injection hr with hr
  rw [← hr]
  simpa [JSVal.truthy] using js_ne_nil el.tagName htag

/-! ## C5: the label resolver -/

/-- C5 (what the resolver does on a list item). On a null element the label is
the empty string, an element whose only attribute is `title="Save File"` gives
"Save File", and a bare `DIV` gives "DIV"; but on an empty list item with a
title, whose `value` is the number `0`, the call `el.value?.trim()` throws a
`TypeError` instead of falling through to the title, and the click listener
records nothing. -/
theorem getElementLabel_list_item_throws :
    getElementLabel none = .ok (.str (js "")) ∧
    getElementLabel (some { bareElement "DIV" with attributes := [("title", "Save File")] }) =
      .ok (.str (js "Save File")) ∧
    getElementLabel (some (bareElement "DIV")) = .ok (.str (js "DIV")) ∧
    getElementLabel (some emptyListItem) = .error .typeError ∧
    onClick demoPage [emptyListItem] trackingState = .error .typeError := by
  refine ⟨rfl, rfl, rfl, rfl, rfl⟩

/-! ## C6: the click description -/

/-- C6 (what the click listener records). While tracking, a click on a button
labelled "Submit" is described `Clicked on "Submit"`, and a click on a span
with no text, value, attributes, name, id or class is described
`Clicked on "SPAN"`, with the tag name in quotes: the resolver has already
fallen back to the tag name, so the unquoted branch is not taken. -/
theorem onClick_unlabeled_span_description :
    (handleSignal demoPage (.click [submitButton]) trackingState).log.map
        (fun r => (r.eventType, r.naturalDescription)) =
      [("click", .str (js "Clicked on \"Submit\""))] ∧
    getElementLabel (some (bareElement "SPAN")) = .ok (.str (js "SPAN")) ∧
    (handleSignal demoPage (.click [bareElement "SPAN"]) trackingState).log.map
        (fun r => (r.eventType, r.naturalDescription)) =
      [("click", .str (js "Clicked on \"SPAN\""))] ∧
    (handleSignal demoPage (.click [bareElement "SPAN"]) trackingState).log.map
        (fun r => r.naturalDescription) ≠ [.str (js "Clicked on SPAN")] := by
  refine ⟨by decide, rfl, by decide, by decide⟩

/-! ## C7: every appended record is described -/

theorem ne_nil_append (a b : JSString) (h : a ≠ []) : a ++ b ≠ [] := by
  intro hab
  exact h (List.append_eq_nil.mp hab).1

theorem mem_pushBounded (events : List EventRecord) (record r : EventRecord)
    (h : r ∈ pushBounded events record) : r ∈ events ∨ r = record := by
  rw [pushBounded_eq_lastN] at h
  unfold lastN at h
  have h1 := List.mem_of_mem_drop h
  simpa using h1

theorem mem_captureEvent_log (page : Page) (eventType : String) (ctx : Context) (s : State)
    (r : EventRecord) (h : r ∈ (captureEvent page eventType ctx s).log) :
    r ∈ s.log ∨ r = buildRecord page eventType ctx := by
  cases ht : s.isTracking with
  | false =>
    rw [captureEvent_of_not_tracking _ _ _ _ ht] at h
    exact Or.inl h
  | true =>
    rw [captureEvent_log _ _ _ _ ht] at h
    exact mem_pushBounded _ _ _ h

theorem described_buildRecord (page : Page) (eventType : String) (ctx : Context)
    (d : JSString) (hty : eventType ∈ eventTypes)
    (hctx : ctx.get "naturalDescription" = .str d) (hd : d ≠ []) :
    (buildRecord page eventType ctx).Described := by
  refine ⟨hty, ?_, ?_⟩
  · intro h0
    have h1 : eventType = "" := h0
    rw [h1] at hty
    revert hty
    decide
  · simp [buildRecord, hctx, JSVal.or, JSVal.truthy, JSVal.isNonEmptyString, hd]

theorem emits_capture (page : Page) (s : State) (eventType : String) (ctx : Context)
    (d : JSString) (hty : eventType ∈ eventTypes)
    (hctx : ctx.get "naturalDescription" = .str d) (hd : d ≠ []) :
    Emits page s (captureEvent page eventType ctx s) :=
  Or.inr ⟨s, eventType, ctx, d, fun _ hr => hr, rfl, hty, hctx, hd⟩

theorem described_of_emits (page : Page) (s s1 : State) (h : Emits page s s1)
    (r : EventRecord) (hr : r ∈ s1.log) : r ∈ s.log ∨ r.Described := by
  rcases h with h | ⟨s0, eventType, ctx, d, hsub, hs1, hty, hctx, hd⟩
  · rw [h] at hr
    exact Or.inl hr
  · rw [hs1] at hr
    rcases mem_captureEvent_log _ _ _ _ _ hr with h0 | h1
    · exact Or.inl (hsub r h0)
    · rw [h1]
      exact Or.inr (described_buildRecord page eventType ctx d hty hctx hd)

theorem clickDescription_ne_nil (label : JSVal) (el : Element) (desc : JSString)
    (h : clickDescription label el = .ok desc) : desc ≠ [] := by
  unfold clickDescription at h
  split at h
  · split at h
    · exact Except.noConfusion h
    · injection h with h
      rw [← h, List.append_assoc]
      exact ne_nil_append _ _ (by decide)
  · injection h with h
    rw [← h]
    exact ne_nil_append _ _ (by decide)

theorem emits_onClick (page : Page) (path : List Element) (s : State) :
    Emits page s (settle s (onClick page path s)) := by
  unfold onClick
  cases closest path with
  | none => exact Or.inl rfl
  | some el =>
    simp only
    cases getElementLabel (some el) with
    | error e => exact Or.inl rfl
    | ok label =>
      simp only
      cases hdesc : clickDescription label el with
      | error e => exact Or.inl rfl
      | ok desc =>
        exact emits_capture page s "click" _ desc (by decide) rfl
          (clickDescription_ne_nil label el desc hdesc)

theorem emits_onSubmit (page : Page) (form : Element) (s : State) :
    Emits page s (settle s (onSubmit page form s)) := by
  unfold onSubmit
  simp only
  split
  · exact Or.inl rfl
  · split
    · exact Or.inl rfl
    · rename_i shown _
      exact emits_capture page s "form_submit" _ (js "Submitted " ++ shown) (by decide) rfl
        (ne_nil_append _ _ (by decide))

theorem emits_onKeydown (page : Page) (key : String) (t : Element) (s : State) :
    Emits page s (settle s (onKeydown page key t s)) := by
  unfold onKeydown
  split
  · split
    · exact Or.inl rfl
    · split
      · exact Or.inl rfl
      · split
        · exact Or.inl rfl
        · rename_i shown _
          refine emits_capture page s "input_edit" _
            (js "Typed \"" ++ js key ++ js "\" in \"" ++ shown ++ js "\"") (by decide) rfl ?_
          rw [List.append_assoc, List.append_assoc, List.append_assoc]
          exact ne_nil_append _ _ (by decide)
  · exact Or.inl rfl

theorem emits_onMutations (page : Page) (probe : Option Element)
    (batch : List MutationRecord) (s : State) :
    Emits page s (settle s (onMutations page probe batch s)) := by
  unfold onMutations
  split
  · simp only
    split
    · exact Or.inl rfl
    · rename_i heading _
      split
      · split
        · exact Or.inl rfl
        · rename_i shown _
          refine emits_capture page s "internalNav" _
            (js "Switched view to \"" ++ shown ++ js "\"") (by decide) rfl ?_
          rw [List.append_assoc]
          exact ne_nil_append _ _ (by decide)
      · exact emits_capture page s "internalNav" _ (js "Switched dynamic view (SPA detected)")
          (by decide) rfl (by decide)
  · exact Or.inl rfl

theorem emits_fetchLog (page : Page) (args : List JSVal) (s : State) :
    Emits page s (settle s (fetchLog page args s)) := by
  unfold fetchLog
  split
  · simp only
    split
    · exact Or.inl rfl
    · rename_i shown _
      refine emits_capture page s "network" _ (js "Triggered fetch(" ++ shown ++ js ")")
        (by decide) rfl ?_
      rw [List.append_assoc]
      exact ne_nil_append _ _ (by decide)
  · exact Or.inl rfl

theorem emits_sendLog (page : Page) (xhr : Xhr) (s : State) :
    Emits page s (settle s (sendLog page xhr s)) := by
  unfold sendLog
  split
  · split
    · exact Or.inl rfl
    · rename_i shown _
      refine emits_capture page s "network" _ (js "Triggered XHR to \"" ++ shown ++ js "\"")
        (by decide) rfl ?_
      rw [List.append_assoc]
      exact ne_nil_append _ _ (by decide)
  · exact Or.inl rfl

theorem emits_handleSignal (page : Page) (sig : Signal) (s : State) :
    Emits page s (handleSignal page sig s) := by
  cases sig with
  | click path => exact emits_onClick page path s
  | submit form => exact emits_onSubmit page form s
  | keydown key t => exact emits_onKeydown page key t s
  | popstate =>
    exact emits_capture page s "navigation" _ (js "Navigated using browser back/forward")
      (by decide) rfl (by decide)
  | hashchange =>
    exact emits_capture page s "navigation" _
      (js "Changed hash to \"" ++ js page.hash ++ js "\"")
      (by decide) rfl (by rw [List.append_assoc]; exact ne_nil_append _ _ (by decide))
  | pageLoad loading =>
    show Emits page s (onPageLoad page loading s)
    unfold onPageLoad
    split
    · exact emits_capture page s "navigation" _ (js "Page loaded (DOMContentLoaded)")
        (by decide) rfl (by decide)
    · exact emits_capture page s "navigation" _ (js "Page loaded (quick start)")
        (by decide) rfl (by decide)
  | fetch args => exact emits_fetchLog page args s
  | xhrSend xhr args => exact emits_sendLog page xhr s
  | mutations probe batch => exact emits_onMutations page probe batch s

theorem emits_onMessage (page : Page) (action : String) (s : State) :
    Emits page s (onMessage page action s).1 := by
  by_cases h1 : action = "start"
  · subst h1
    refine Or.inr ⟨{ isTracking := true, storage := { s.storage with isTracking := some true } },
      "tracking", [("naturalDescription", .str (js "Tracking started"))], js "Tracking started",
      fun _ hr => hr, ?_, by decide, rfl, by decide⟩
    simp [onMessage]
  · by_cases h2 : action = "stop"
    · subst h2
      refine Or.inr ⟨{ isTracking := false, storage := { s.storage with isTracking := some false } },
        "tracking", [("naturalDescription", .str (js "Tracking stopped"))],
        js "Tracking stopped", fun _ hr => hr, ?_, by decide, rfl, by decide⟩
      simp [onMessage]
    · by_cases h3 : action = "clear"
      · subst h3
        refine Or.inr ⟨{ s with storage := { s.storage with navigationEvents := some [] } },
          "tracking", [("naturalDescription", .str (js "Events cleared"))], js "Events cleared",
          ?_, ?_, by decide, rfl, by decide⟩
        · intro r hr
          simp [State.log, Storage.getNavigationEvents] at hr
        · simp [onMessage]
      · exact Or.inl (by simp [onMessage, h1, h2, h3])

/-- C7. Every record that a step of the script (any click, submit, keydown,
popstate, hashchange, page-load, fetch, XHR send or mutation signal, or any
control message) adds to the stored log has one of the seven event types,
hence a non-empty `eventType`, and a non-empty string as `naturalDescription`,
whatever the elements, keys, URLs, hash and heading involved. -/
theorem appended_record_described (page : Page) (input : Input) (s : State)
    (r : EventRecord) (hr : r ∈ (step page input s).log) :
    r ∈ s.log ∨ r.Described := by
  cases input with
  | signal sig => exact described_of_emits page s _ (emits_handleSignal page sig s) r hr
  | message action => exact described_of_emits page s _ (emits_onMessage page action s) r hr

/-- C7 instantiated: the record of a click on an element without any label
source is in the new log and is described. -/
theorem appended_record_described_witness :
    spanClickRecord ∈ (step demoPage (.signal (.click [bareElement "SPAN"])) trackingState).log ∧
    (spanClickRecord ∈ trackingState.log ∨ spanClickRecord.Described) :=
  ⟨by decide,
    appended_record_described demoPage (.signal (.click [bareElement "SPAN"])) trackingState
      spanClickRecord (by decide)⟩

/-! ## C8: the keydown filter -/

/-- C8 (counterexample). While tracking, a keydown on a checkbox `INPUT`
appends an `input_edit` record. -/
theorem onKeydown_checkbox_recorded :
    checkbox.type = .str (js "checkbox") ∧
    (handleSignal demoPage (.keydown " " checkbox) trackingState).log.map
        (fun r => (r.eventType, r.naturalDescription)) =
      [("input_edit", .str (js "Typed \" \" in \"on\""))] := by
  refine ⟨rfl, by decide⟩

theorem isEditTarget_iff (t : Element) :
    isEditTarget t = true ↔
      (t.tagName = "INPUT" ∨ t.tagName = "TEXTAREA" ∨ t.isContentEditable.truthy = true) := by
  simp [isEditTarget, or_assoc]

theorem substr100_cuts_code_units :
    substr100 (longField.value.or (.str (js ""))) =
      .ok (.str (js (String.mk (List.replicate 99 'a')) ++ [0xD83D])) ∧
    (jsSubstr0 100 (js (String.mk (List.replicate 99 'a') ++ "😀b"))).length = 100 := by
  refine ⟨rfl, by decide⟩

/-- C8 (amended). While tracking, a keydown whose listener runs to completion
appends an `input_edit` record if and only if the target's tag name is `INPUT`
(whatever its type) or `TEXTAREA`, or the target is content-editable; on any
other target the state is left as it was. -/
theorem onKeydown_filter (page : Page) (key : String) (t : Element) (s s1 : State)
    (htrack : s.isTracking = true) (hrun : onKeydown page key t s = .ok s1) :
    (isEditTarget t = true ↔
      (t.tagName = "INPUT" ∨ t.tagName = "TEXTAREA" ∨ t.isContentEditable.truthy = true)) ∧
    (isEditTarget t = true →
      ∃ r : EventRecord, r.eventType = "input_edit" ∧ r.Described ∧
        s1.log = pushBounded s.log r) ∧
    (isEditTarget t = false → s1 = s) ∧
    (s.log.length < 2000 →
      (s1.log.length = s.log.length + 1 ↔ isEditTarget t = true)) := by
  have hyes : isEditTarget t = true →
      ∃ r : EventRecord, r.eventType = "input_edit" ∧ r.Described ∧
        s1.log = pushBounded s.log r := by
    intro hedit
    unfold onKeydown at hrun
    rw [if_pos hedit] at hrun
    split at hrun
    · exact Except.noConfusion hrun
    · split at hrun
      · exact Except.noConfusion hrun
      · split at hrun
        · exact Except.noConfusion hrun
        · rename_i _ value _ _ label _ _ shown _
          injection hrun with hrun
          refine ⟨buildRecord page "input_edit"
            [ ("key", .str (js key)), ("name", t.name.or (.str (js t.id))),
              ("type", t.type.or (.str (js ""))), ("value", value),
              ("naturalDescription",
                .str (js "Typed \"" ++ js key ++ js "\" in \"" ++ shown ++ js "\"")) ],
            rfl, ?_, ?_⟩
          · refine described_buildRecord page "input_edit" _
              (js "Typed \"" ++ js key ++ js "\" in \"" ++ shown ++ js "\"") (by decide) rfl ?_
            rw [List.append_assoc, List.append_assoc, List.append_assoc]
            exact ne_nil_append _ _ (by decide)
          · rw [← hrun, captureEvent_log _ _ _ _ htrack]
  have hno : isEditTarget t = false → s1 = s := by
    intro hedit
    unfold onKeydown at hrun
    rw [hedit] at hrun
    simp only [Bool.false_eq_true, if_false] at hrun
    injection hrun with hrun
    exact hrun.symm
  refine ⟨isEditTarget_iff t, hyes, hno, ?_⟩
  intro hlen
  cases hedit : isEditTarget t with
  | true =>
    obtain ⟨r, _, _, hlog⟩ := hyes hedit
    have hpush : pushBounded s.log r = s.log ++ [r] := by
      rw [pushBounded_eq_lastN]
      exact lastN_of_length_le 2000 _ (by simp; omega)
    simp [hlog, hpush]
  | false =>
    rw [hno hedit]
    simp

/-- C8 instantiated at the checkbox. -/
theorem onKeydown_filter_witness :
    trackingState.isTracking = true ∧
    isEditTarget checkbox = true ∧
    (settle trackingState (onKeydown demoPage " " checkbox trackingState)).log.length =
      trackingState.log.length + 1 :=
  ⟨rfl, rfl,
    ((onKeydown_filter demoPage " " checkbox trackingState
      (settle trackingState (onKeydown demoPage " " checkbox trackingState)) rfl rfl).2.2.2
        (by decide)).mpr rfl⟩

/-! ## C9: network records -/

/-- C9 (counterexample). While tracking, `open("GET", "")` followed by `send()`
appends no record: the empty URL fails the truthiness guard of `send`. -/
theorem xhr_empty_url_not_recorded :
    (patchedOpen recordingNative [.str (js "GET"), .str (js "")] Xhr.fresh []).2.2._navcap_url
      = .str (js "") ∧
    patchedSend recordingNative demoPage []
      (patchedOpen recordingNative [.str (js "GET"), .str (js "")] Xhr.fresh []).2.2
      trackingState
      (patchedOpen recordingNative [.str (js "GET"), .str (js "")] Xhr.fresh []).2.1 =
      .ok (.undefined, [[.str (js "GET"), .str (js "")], []], trackingState) ∧
    trackingState.log = [] := by
  refine ⟨rfl, rfl, rfl⟩

theorem buildRecord_description (page : Page) (eventType : String) (ctx : Context)
    (d : JSString) (hctx : ctx.get "naturalDescription" = .str d) (hd : d ≠ []) :
    (buildRecord page eventType ctx).naturalDescription = .str d := by
  show (ctx.get "naturalDescription").or (.str (js "")) = .str d
  rw [hctx]
  simp [JSVal.or, JSVal.truthy, hd]

theorem fetchRecord_fields (page : Page) (u : JSString) :
    (fetchRecord page u).eventType = "network" ∧
    (fetchRecord page u).additionalContext.get "url" = .str u ∧
    (fetchRecord page u).naturalDescription = .str (js "Triggered fetch(" ++ u ++ js ")") := by
  refine ⟨rfl, rfl, buildRecord_description _ _ _ _ rfl ?_⟩
  rw [List.append_assoc]
  exact ne_nil_append _ _ (by decide)

theorem xhrRecord_fields (page : Page) (u : JSString) :
    (xhrRecord page u).eventType = "network" ∧
    (xhrRecord page u).additionalContext.get "url" = .str u ∧
    (xhrRecord page u).naturalDescription =
      .str (js "Triggered XHR to \"" ++ u ++ js "\"") := by
  refine ⟨rfl, rfl, buildRecord_description _ _ _ _ rfl ?_⟩
  rw [List.append_assoc]
  exact ne_nil_append _ _ (by decide)

theorem patchedFetch_of_log {W R : Type} (origFetch : List JSVal → W → R × W) (page : Page)
    (args : List JSVal) (s s1 : State) (w : W) (h : fetchLog page args s = .ok s1) :
    patchedFetch origFetch page args s w =
      .ok ((origFetch args w).1, (origFetch args w).2, s1) := by
  unfold patchedFetch
  rw [h]

theorem patchedSend_of_log {W R : Type} (origSend : List JSVal → W → R × W) (page : Page)
    (args : List JSVal) (xhr : Xhr) (s s1 : State) (w : W) (h : sendLog page xhr s = .ok s1) :
    patchedSend origSend page args xhr s w =
      .ok ((origSend args w).1, (origSend args w).2, s1) := by
  unfold patchedSend
  rw [h]

theorem fetchLog_string (page : Page) (u : JSString) (rest : List JSVal) (s : State)
    (h : s.isTracking = true) :
    fetchLog page (.str u :: rest) s = .ok (afterFetch page u s) := by
  simp [fetchLog, h, fetchUrl, toStr, afterFetch]

theorem sendLog_string (page : Page) (u : JSString) (s : State)
    (h : s.isTracking = true) (hu : u ≠ []) :
    sendLog page { _navcap_url := .str u } s = .ok (afterSend page u s) := by
  simp [sendLog, h, JSVal.truthy, hu, toStr, afterSend]

theorem sendLog_falsy (page : Page) (xhr : Xhr) (s : State)
    (h : xhr._navcap_url.truthy = false) : sendLog page xhr s = .ok s := by
  simp [sendLog, h]

/-- C9 (amended). While tracking, two successive calls of the patched `fetch`
whose first arguments are the strings `u1` then `u2` complete, each returning
what the original returns, and append exactly two records, in that order, each
of type "network", with context `url` equal to `u1` and `u2` and described
`Triggered fetch(u)`. A patched `open(method, u)` with a string `u` followed
by `send` appends exactly one "network" record with context `url` equal to `u`
and a description containing `u` when `u` is not empty, and none when `u` is
empty; a `send` on a request that was never opened appends none. -/
theorem network_records {W R : Type} (origFetch origOpen origSend : List JSVal → W → R × W)
    (p1 p2 : Page) (u1 u2 u : JSString) (rest1 rest2 openRest sendArgs : List JSVal)
    (method : JSVal) (xhr0 : Xhr) (s : State) (w w1 w2 : W)
    (htrack : s.isTracking = true) :
    (patchedFetch origFetch p1 (.str u1 :: rest1) s w =
        .ok ((origFetch (.str u1 :: rest1) w).1, (origFetch (.str u1 :: rest1) w).2,
          afterFetch p1 u1 s) ∧
      patchedFetch origFetch p2 (.str u2 :: rest2) (afterFetch p1 u1 s) w1 =
        .ok ((origFetch (.str u2 :: rest2) w1).1, (origFetch (.str u2 :: rest2) w1).2,
          afterFetch p2 u2 (afterFetch p1 u1 s)) ∧
      (afterFetch p2 u2 (afterFetch p1 u1 s)).log =
        pushBounded (pushBounded s.log (fetchRecord p1 u1)) (fetchRecord p2 u2)) ∧
    ((fetchRecord p1 u1).eventType = "network" ∧
      (fetchRecord p1 u1).additionalContext.get "url" = .str u1 ∧
      (fetchRecord p1 u1).naturalDescription =
        .str (js "Triggered fetch(" ++ u1 ++ js ")")) ∧
    (patchedSend origSend p1 sendArgs
        (patchedOpen origOpen (method :: .str u :: openRest) xhr0 w).2.2 s w2 =
        .ok ((origSend sendArgs w2).1, (origSend sendArgs w2).2,
          if u = [] then s else afterSend p1 u s) ∧
      (afterSend p1 u s).log = pushBounded s.log (xhrRecord p1 u)) ∧
    ((xhrRecord p1 u).eventType = "network" ∧
      (xhrRecord p1 u).additionalContext.get "url" = .str u ∧
      (xhrRecord p1 u).naturalDescription =
        .str (js "Triggered XHR to \"" ++ u ++ js "\"")) ∧
    patchedSend origSend p1 sendArgs Xhr.fresh s w2 =
      .ok ((origSend sendArgs w2).1, (origSend sendArgs w2).2, s) := by
  have ht : (afterFetch p1 u1 s).isTracking = true := by
    unfold afterFetch
    rw [captureEvent_isTracking]; exact htrack
  refine ⟨⟨?_, ?_, ?_⟩, fetchRecord_fields p1 u1, ⟨?_, ?_⟩, xhrRecord_fields p1 u, ?_⟩
  · exact patchedFetch_of_log origFetch p1 _ s _ w (fetchLog_string p1 u1 rest1 s htrack)
  · exact patchedFetch_of_log origFetch p2 _ _ _ w1 (fetchLog_string p2 u2 rest2 _ ht)
  · unfold afterFetch at ht ⊢
    rw [captureEvent_log _ _ _ _ ht, captureEvent_log _ _ _ _ htrack]
    rfl
  · have hx : (patchedOpen origOpen (method :: .str u :: openRest) xhr0 w).2.2
        = { _navcap_url := .str u } := rfl
    rw [hx]
    by_cases hu : u = []
    · rw [if_pos hu]
      exact patchedSend_of_log origSend p1 _ _ s s w2
        (sendLog_falsy p1 _ s (by simp [hu, JSVal.truthy]))
    · rw [if_neg hu]
      exact patchedSend_of_log origSend p1 _ _ s _ w2 (sendLog_string p1 u s htrack hu)
  · unfold afterSend
    rw [captureEvent_log _ _ _ _ htrack]
    rfl
  · exact patchedSend_of_log origSend p1 _ _ s s w2 (sendLog_falsy p1 _ s rfl)

/-- C9 instantiated: fetches of "/api/a" then "/api/b" while tracking leave
the two records, in that order. -/
theorem network_records_witness :
    trackingState.isTracking = true ∧
    (afterFetch demoPage (js "/api/b") (afterFetch demoPage (js "/api/a") trackingState)).log =
      [fetchRecord demoPage (js "/api/a"), fetchRecord demoPage (js "/api/b")] :=
  ⟨rfl,
    (network_records recordingNative recordingNative recordingNative demoPage demoPage
      (js "/api/a") (js "/api/b") (js "/x") [] [] [] [] (.str (js "GET")) Xhr.fresh
      trackingState [] [] [] rfl).1.2.2.trans (by decide)⟩

/-! ## C10: interception transparency -/

theorem named_parameters_of_two (args : List JSVal) (h : 2 ≤ args.length) :
    args.getD 0 .undefined :: args.getD 1 .undefined :: args.drop 2 = args := by
  match args, h with
  | _ :: _ :: _, _ => rfl

theorem patchedOpen_of_two {W R : Type} (origOpen : List JSVal → W → R × W)
    (args : List JSVal) (xhr : Xhr) (w : W) (h : 2 ≤ args.length) :
    (patchedOpen origOpen args xhr w).1 = (origOpen args w).1 ∧
    (patchedOpen origOpen args xhr w).2.1 = (origOpen args w).2 := by
  have hargs := named_parameters_of_two args h
  constructor
  · show (origOpen (args.getD 0 .undefined :: args.getD 1 .undefined :: args.drop 2) w).1 = _
    rw [hargs]
  · show (origOpen (args.getD 0 .undefined :: args.getD 1 .undefined :: args.drop 2) w).2 = _
    rw [hargs]

theorem fetchLog_of_not_tracking (page : Page) (args : List JSVal) (s : State)
    (h : s.isTracking = false) : fetchLog page args s = .ok s := by
  simp [fetchLog, h]

/-- C10 (what the patched functions forward). Called with the single argument
"GET", the patched `open` calls the original with the two arguments "GET" and
`undefined`, not with the argument list it received, whereas `send` forwards
its list unchanged. Called while tracking with an object whose `url` is a
symbol, the patched `fetch` throws in its logging block and never reaches the
original, which the same call does reach when tracking is off. -/
theorem patchedOpen_pads_arguments :
    (recordingNative [.str (js "GET")] []).2 = [[.str (js "GET")]] ∧
    (patchedOpen recordingNative [.str (js "GET")] Xhr.fresh []).2.1 =
      [[.str (js "GET"), .undefined]] ∧
    (patchedOpen recordingNative [.str (js "GET")] Xhr.fresh []).2.1 ≠
      (recordingNative [.str (js "GET")] []).2 ∧
    patchedSend recordingNative demoPage [.str (js "body")] Xhr.fresh trackingState [] =
      .ok (.undefined, [[.str (js "body")]], trackingState) ∧
    patchedFetch recordingNative demoPage [symbolUrlRequest] trackingState [] =
      .error .typeError ∧
    patchedFetch recordingNative demoPage [symbolUrlRequest] idleState [] =
      .ok (.undefined, [[symbolUrlRequest]], idleState) := by
  refine ⟨rfl, rfl, by decide, rfl, rfl, rfl⟩

end NavTrack
